import Mathlib

/-!
libcalico-go: the Profile update processor and the resource client contract.

A shallow embedding of `lib/backend/syncersv1/updateprocessors/profileprocessor.go`
and of the `Update` contract exercised by `lib/clientv3/bgppeer_e2e_test.go`.

Conventions of the embedding:

* a Go interface value is an inductive type with one constructor per dynamic
  type the code distinguishes, plus `nil` and a catch-all `other`;
* a Go `error` is `Option String` (the message; `none` is the nil error);
* a Go slice is a `List`; the nil slice returned next to an error is `none`
  of an `Option (List _)`;
* a Go call either returns or panics: `GoResult`.
-/

set_option autoImplicit false

namespace Calico

/-- Outcome of a Go call: a run-time panic or a normal return. -/
inductive GoResult (α : Type) where
  | panic (msg : String)
  | ret (a : α)
deriving DecidableEq, Repr

/-- Go `map[string]string`; `none` is the nil map. -/
abbrev StringMap := Option (List (String × String))

/-! Package `apiv2`: the fields of a Profile that the processor reads -/

namespace apiv2

/-- Modelled from the spec: the constant `apiv2.KindProfile`, whose declaration in
package `lib/apis/v2` is missing; it is the kind tag of Profile resources, the
string `Profile`. -/
def KindProfile : String := "Profile"

/-- The fields of `apiv2.ProfileSpec` read by the processor. -/
structure ProfileSpec (V2Rule : Type) where
  IngressRules : List V2Rule
  EgressRules : List V2Rule
  LabelsToApply : StringMap
deriving DecidableEq, Repr

/-- The part of `apiv2.Profile` read by the processor. -/
structure Profile (V2Rule : Type) where
  Spec : ProfileSpec V2Rule
deriving DecidableEq, Repr

end apiv2

/-! Package `model`: keys, values and KV pairs -/

namespace model

/-- Go `model.ResourceKey`. -/
structure ResourceKey where
  Name : String
  Namespace : String
  Kind : String
deriving DecidableEq, Repr

/-- Go `model.ProfileKey`. -/
structure ProfileKey where
  Name : String
deriving DecidableEq, Repr

/-- Go `model.ProfileLabelsKey`, a struct embedding a `ProfileKey`. -/
structure ProfileLabelsKey where
  ProfileKey : ProfileKey
deriving DecidableEq, Repr

/-- Go `model.ProfileRulesKey`, a struct embedding a `ProfileKey`. -/
structure ProfileRulesKey where
  ProfileKey : ProfileKey
deriving DecidableEq, Repr

/-- A value of interface type `model.Key`, by dynamic type. -/
inductive Key where
  | nil
  | resourceKey (rk : ResourceKey)
  | profileLabelsKey (k : ProfileLabelsKey)
  | profileRulesKey (k : ProfileRulesKey)
  | other (typeName : String)
deriving DecidableEq, Repr

/-- Go `model.ProfileRules`. -/
structure ProfileRules (V1Rule : Type) where
  InboundRules : List V1Rule
  OutboundRules : List V1Rule
deriving DecidableEq, Repr

/-- The fields of `model.Profile` set by the processor. -/
structure Profile (V1Rule : Type) where
  Rules : ProfileRules V1Rule
  Labels : StringMap
deriving DecidableEq, Repr

/-- A value of type `interface{}` as carried in `KVPair.Value`, by dynamic type.
`v2Profile none` is a nil pointer of type `*apiv2.Profile`, which is not the nil
interface. -/
inductive Value (V2Rule V1Rule : Type) where
  | nil
  | v2Profile (p : Option (apiv2.Profile V2Rule))
  | labels (m : StringMap)
  | profileRules (r : ProfileRules V1Rule)
  | other (typeName : String)
deriving DecidableEq, Repr

/-- The comparison `v == nil` of an interface value with the nil interface. -/
def Value.isNil {V2Rule V1Rule : Type} : Value V2Rule V1Rule → Bool
  | .nil => true
  | _ => false

/-- Revision of a KV pair; the empty string is the zero value. -/
abbrev Revision := String

/-- Go `model.KVPair` (key, value, revision). -/
structure KVPair (V2Rule V1Rule : Type) where
  Key : Key
  Value : Value V2Rule V1Rule
  Revision : Revision
deriving DecidableEq, Repr

/-- The type assertion `k.(model.ResourceKey)` in its two-result form: the
asserted value and `ok`; on failure the zero `ResourceKey` and `false`. -/
def Key.assertResourceKey : Key → ResourceKey × Bool
  | .resourceKey rk => (rk, true)
  | _ => ({ Name := "", Namespace := "", Kind := "" }, false)

end model

/-! Package `updateprocessors` -/

namespace updateprocessors

open model

section
variable {V2Rule V1Rule : Type}

/-- Go `profileUpdateProcessor`. -/
structure profileUpdateProcessor where
  v2Kind : String
deriving DecidableEq, Repr

/-- Go `NewProfileUpdateProcessor`. -/
def NewProfileUpdateProcessor : profileUpdateProcessor :=
  { v2Kind := apiv2.KindProfile }

/-- The loop `for _, r := range rs { out = append(out, conv(r)) }` starting from
the nil slice. -/
def appendConverted (RuleAPIV2ToBackend : V2Rule → V1Rule) (rs : List V2Rule) : List V1Rule :=
  rs.foldl (fun out r => out ++ [RuleAPIV2ToBackend r]) []

/-- Go `convertProfileV2ToV1Value`. The rule converter `RuleAPIV2ToBackend`, which
another file of the package defines, is a parameter, as are the rule types
`apiv2.Rule` and `model.Rule`. Returns the pointer to the v1
profile (`none` is nil) and the error. -/
def convertProfileV2ToV1Value (RuleAPIV2ToBackend : V2Rule → V1Rule)
    (val : Value V2Rule V1Rule) : GoResult (Option (model.Profile V1Rule) × Option String) :=
  match val with
  | .v2Profile v2res =>
    match v2res with
    | none => .panic "runtime error: invalid memory address or nil pointer dereference"
    | some v2res =>
      let irules := appendConverted RuleAPIV2ToBackend v2res.Spec.IngressRules
      let erules := appendConverted RuleAPIV2ToBackend v2res.Spec.EgressRules
      let rules : ProfileRules V1Rule := { InboundRules := irules, OutboundRules := erules }
      let v1value : model.Profile V1Rule := { Rules := rules, Labels := v2res.Spec.LabelsToApply }
      .ret (some v1value, none)
  | _ => .ret (none, some "Value is not a valid Profile resource value")

/-- The tail of `Process` after the conversion: builds the two KV pairs from the
keys, the converted profile (nil or not) and the input revision. -/
def buildKVPairs (v1labelsKey : ProfileLabelsKey) (v1rulesKey : ProfileRulesKey)
    (v1profile : Option (model.Profile V1Rule)) (rev : Revision) :
    List (KVPair V2Rule V1Rule) :=
  let labelskvp : KVPair V2Rule V1Rule :=
    { Key := .profileLabelsKey v1labelsKey, Value := .nil, Revision := "" }
  let ruleskvp : KVPair V2Rule V1Rule :=
    { Key := .profileRulesKey v1rulesKey, Value := .nil, Revision := "" }
  match v1profile with
  | some p =>
    [ { labelskvp with Value := .labels p.Labels, Revision := rev },
      { ruleskvp with Value := .profileRules p.Rules, Revision := rev } ]
  | none => [labelskvp, ruleskvp]

/-- Go `(*profileUpdateProcessor).Process`. Returns the slice of KV pairs (`none`
is the nil slice) and the error. The warning logged on a conversion failure has
no effect on the result and is not represented. -/
def Process (RuleAPIV2ToBackend : V2Rule → V1Rule) (pup : profileUpdateProcessor)
    (kvp : KVPair V2Rule V1Rule) :
    GoResult (Option (List (KVPair V2Rule V1Rule)) × Option String) :=
  let (rk, ok) := kvp.Key.assertResourceKey
  if !ok || rk.Kind != pup.v2Kind then
    .ret (none, some ("Incorrect key type - expecting resource of kind " ++ pup.v2Kind))
  else
    let (v2key, ok) := kvp.Key.assertResourceKey
    if !ok then
      .ret (none, some "Key is not a valid V2 resource key")
    else if v2key.Name == "" then
      .ret (none, some "Missing Name field to create a v1 Profile Key")
    else
      let pk : ProfileKey := { Name := v2key.Name }
      let v1labelsKey : ProfileLabelsKey := { ProfileKey := pk }
      let v1rulesKey : ProfileRulesKey := { ProfileKey := pk }
      if !kvp.Value.isNil then
        match convertProfileV2ToV1Value RuleAPIV2ToBackend kvp.Value with
        | .panic msg => .panic msg
        | .ret (v1profile, _) =>
          .ret (some (buildKVPairs v1labelsKey v1rulesKey v1profile kvp.Revision), none)
      else
        .ret (some (buildKVPairs v1labelsKey v1rulesKey none kvp.Revision), none)

/-- Go `(*profileUpdateProcessor).OnSyncerStarting`: does nothing. -/
def OnSyncerStarting (pup : profileUpdateProcessor) : profileUpdateProcessor := pup

/-- A call made on a processor through the `SyncerUpdateProcessor` interface. -/
inductive Call (V2Rule V1Rule : Type) where
  | Process (kvp : KVPair V2Rule V1Rule)
  | OnSyncerStarting

/-- A record written through the logger: the value of its `Resource` field and
the message. -/
structure LogRecord where
  Resource : Key
  msg : String
deriving DecidableEq, Repr

/-- The state a call on the processor can read and write: the struct behind the
receiver pointer, and the records written to the logger so far. -/
structure World where
  pup : profileUpdateProcessor
  log : List LogRecord
deriving DecidableEq, Repr

/-- Go `(*profileUpdateProcessor).Process` with its state made explicit, statement
by statement: the receiver is read through the world, the warning of a failed
conversion is appended to the log, and the world after the call is returned next
to the result. -/
def ProcessStateful (RuleAPIV2ToBackend : V2Rule → V1Rule) (w : World)
    (kvp : KVPair V2Rule V1Rule) :
    World × GoResult (Option (List (KVPair V2Rule V1Rule)) × Option String) :=
  let (rk, ok) := kvp.Key.assertResourceKey
  if !ok || rk.Kind != w.pup.v2Kind then
    (w, .ret (none, some ("Incorrect key type - expecting resource of kind " ++ w.pup.v2Kind)))
  else
    let (v2key, ok) := kvp.Key.assertResourceKey
    if !ok then
      (w, .ret (none, some "Key is not a valid V2 resource key"))
    else if v2key.Name == "" then
      (w, .ret (none, some "Missing Name field to create a v1 Profile Key"))
    else
      let pk : ProfileKey := { Name := v2key.Name }
      let v1labelsKey : ProfileLabelsKey := { ProfileKey := pk }
      let v1rulesKey : ProfileRulesKey := { ProfileKey := pk }
      if !kvp.Value.isNil then
        match convertProfileV2ToV1Value RuleAPIV2ToBackend kvp.Value with
        | .panic msg => (w, .panic msg)
        | .ret (v1profile, err) =>
          let w2 : World :=
            match err with
            | some _ =>
              { w with log := w.log ++
                  [{ Resource := kvp.Key,
                     msg := "Unable to process resource data - treating as deleted" }] }
            | none => w
          (w2, .ret (some (buildKVPairs v1labelsKey v1rulesKey v1profile kvp.Revision), none))
      else
        (w, .ret (some (buildKVPairs v1labelsKey v1rulesKey none kvp.Revision), none))

/-- The world after one call on the processor. -/
def applyCall (RuleAPIV2ToBackend : V2Rule → V1Rule) (w : World) :
    Call V2Rule V1Rule → World
  | .Process kvp => (ProcessStateful RuleAPIV2ToBackend w kvp).1
  | .OnSyncerStarting => { w with pup := OnSyncerStarting w.pup }

/-- The world after a sequence of calls on the processor, oldest first. -/
def runCalls (RuleAPIV2ToBackend : V2Rule → V1Rule) (w : World)
    (calls : List (Call V2Rule V1Rule)) : World :=
  calls.foldl (applyCall RuleAPIV2ToBackend) w

/-- Keys of the returned KV pairs, in order; `none` when no list is returned. -/
def resultKeys :
    GoResult (Option (List (KVPair V2Rule V1Rule)) × Option String) → Option (List Key)
  | .ret (some kvs, _) => some (kvs.map (fun kv => kv.Key))
  | _ => none

/-- Number of returned KV pairs; `none` when no list is returned. -/
def resultLength :
    GoResult (Option (List (KVPair V2Rule V1Rule)) × Option String) → Option Nat
  | .ret (some kvs, _) => some kvs.length
  | _ => none

/-- Whether the call returned a non-nil error. -/
def returnsError :
    GoResult (Option (List (KVPair V2Rule V1Rule)) × Option String) → Bool
  | .ret (_, some _) => true
  | _ => false

/-- The keys called bad for the Profile processor: a key that is not a
`model.ResourceKey`, or whose kind is not Profile, or whose name is empty. -/
def isBadProfileKey : Key → Bool
  | .resourceKey rk => rk.Kind != apiv2.KindProfile || rk.Name == ""
  | _ => true

end

end updateprocessors

/-! Package `clientv3`: the resource client contract

The implementation of the client and of its datastore is missing; its end-to-end
test for BGPPeer resources is the only source. The definitions below follow the
specification of the Resource Client and the messages the test expects. -/

namespace clientv3

/-- Modelled from the spec: a Resource, which the spec gives as kind tag, key (name),
opaque spec payload and metadata (creation timestamp, unique id, revision). The
declaration of the resource types is missing. An empty `ResourceVersion` or `UID`
and a `CreationTimestamp` of `0` are the unset (zero) values. -/
structure Resource (Spec : Type) where
  Kind : String
  Name : String
  ResourceVersion : String
  UID : String
  CreationTimestamp : Nat
  Spec : Spec
deriving DecidableEq, Repr

/-- Modelled from the spec: the error taxonomy of the CRUD calls, which is declared
in a missing package. `InvalidInput` names the offending field, its value and the
reason; `NotFound` carries the key and the underlying cause. -/
inductive Error where
  | InvalidInput (field value reason : String)
  | NotFound (kind name cause : String)
  | AlreadyExists (kind name : String)
  | Conflict (kind name : String)
deriving DecidableEq, Repr

/-- Modelled from the spec: the message text of an error, whose implementation is
missing; the wording is the one the spec quotes and the end-to-end test matches. -/
def Error.text : Error → String
  | .InvalidInput field value reason =>
    "error with field " ++ field ++ " = \x27" ++ value ++ "\x27 (" ++ reason ++ ")"
  | .NotFound kind name cause =>
    "resource does not exist: " ++ kind ++ "(" ++ name ++ ") with error: " ++ cause
  | .AlreadyExists kind name => "resource already exists: " ++ kind ++ "(" ++ name ++ ")"
  | .Conflict kind name => "update conflict: " ++ kind ++ "(" ++ name ++ ")"

/-- Modelled from the spec: the state of the backing store seen through one client,
which is missing: the live resources, the last revision handed out, and the text
the store gives as cause when a key is absent. -/
structure Datastore (Spec : Type) where
  items : List (Resource Spec)
  revision : Nat
  notFoundCause : String
deriving DecidableEq, Repr

section
variable {Spec : Type}

/-- Modelled from the spec: lookup of the live resource of a key; the datastore
read path is missing. -/
def Datastore.lookup (s : Datastore Spec) (kind name : String) : Option (Resource Spec) :=
  s.items.find? (fun x => x.Kind == kind && x.Name == name)

/-- Modelled from the spec: how the zero creation timestamp is printed in an error
message; the formatting code is missing and the text is the one the end-to-end
test expects. -/
def zeroTimeText : String := "0001-01-01 00:00:00 +0000 UTC"

/-- Modelled from the spec: the reason given when a precondition field of Update is
unset; the validation code is missing and the text is the one the end-to-end
test expects. -/
def mustBeSetForUpdate : String := "field must be set for an Update request"

/-- Modelled from the spec: `Get(key)` of the client, which is missing: returns the
resource at the current revision, or fails with `NotFound` including the key and
an underlying cause. Returns (resource, error). -/
def Get (s : Datastore Spec) (kind name : String) : Option (Resource Spec) × Option Error :=
  match s.lookup kind name with
  | some r => (some r, none)
  | none => (none, some (.NotFound kind name s.notFoundCause))

/-- Modelled from the spec: `Update(resource)` of the client, which is missing:
requires non-empty revision, non-empty unique id and non-zero creation timestamp,
failing with `InvalidInput` naming the missing field; fails with `NotFound` if the
key does not exist and with `Conflict` if the given revision is not the current
one; on success advances the revision and returns the new resource. No call has
effects if it returns an error. Returns the new state and (resource, error). -/
def Update (s : Datastore Spec) (r : Resource Spec) :
    Datastore Spec × Option (Resource Spec) × Option Error :=
  if r.ResourceVersion = "" then
    (s, none, some (.InvalidInput "Metadata.ResourceVersion" r.ResourceVersion
      mustBeSetForUpdate))
  else if r.UID = "" then
    (s, none, some (.InvalidInput "Metadata.UID" r.UID mustBeSetForUpdate))
  else if r.CreationTimestamp = 0 then
    (s, none, some (.InvalidInput "Metadata.CreationTimestamp" zeroTimeText
      mustBeSetForUpdate))
  else
    match s.lookup r.Kind r.Name with
    | none => (s, none, some (.NotFound r.Kind r.Name s.notFoundCause))
    | some cur =>
      if cur.ResourceVersion ≠ r.ResourceVersion then
        (s, none, some (.Conflict r.Kind r.Name))
      else
        let rev := s.revision + 1
        let stored := { r with ResourceVersion := toString rev }
        ({ s with
            items := s.items.map
              (fun x => if x.Kind == r.Kind && x.Name == r.Name then stored else x),
            revision := rev },
          some stored, none)

end

/-- The BGPPeer `bgppeer-1` of the end-to-end test after its creation (revision 1)
and one successful update (revision 2). -/
def bgppeerStored : Resource String :=
  { Kind := "BGPPeer", Name := "bgppeer-1", ResourceVersion := "2", UID := "uid-1",
    CreationTimestamp := 1500000000, Spec := "node2 20.0.0.1 6511" }

/-- A store holding `bgppeerStored` as its only live resource. -/
def bgppeerStore : Datastore String :=
  { items := [bgppeerStored], revision := 2, notFoundCause := "key not found" }

/-- A store with no live resource. -/
def emptyStore : Datastore String :=
  { items := [], revision := 0, notFoundCause := "key not found" }

section
variable {Spec : Type}

/-- Modelled from the spec: the reason given when Create is handed a revision; the
validation code is missing and the text is the one the end-to-end test expects. -/
def mustNotBeSetForCreate : String := "field must not be set for a Create request"

/-- Modelled from the spec: `Create(resource)` of the client, which is missing: fails
with `InvalidInput` if the caller supplied a revision and with `AlreadyExists` if
the key is present; on success the store assigns the revision and returns the
stored resource. The unique id and the creation time stamped on the stored
resource come from the environment and are parameters (the end-to-end test
updates the resource that Create returned, so both are set on it). Returns the
new state and (resource, error). -/
def Create (s : Datastore Spec) (r : Resource Spec) (uid : String) (now : Nat) :
    Datastore Spec × Option (Resource Spec) × Option Error :=
  if r.ResourceVersion ≠ "" then
    (s, none, some (.InvalidInput "Metadata.ResourceVersion" r.ResourceVersion
      mustNotBeSetForCreate))
  else
    match s.lookup r.Kind r.Name with
    | some _ => (s, none, some (.AlreadyExists r.Kind r.Name))
    | none =>
      let rev := s.revision + 1
      let stored := { r with ResourceVersion := toString rev, UID := uid,
                             CreationTimestamp := now }
      ({ s with items := s.items ++ [stored], revision := rev }, some stored, none)

/-- Modelled from the spec: `Delete(key, [revision])` of the client, which is
missing: absence fails with `NotFound`; a supplied revision (non-empty `rv`) is a
precondition whose mismatch fails with `Conflict`; on success the key is removed,
the store revision advances and the last live value is returned. Returns the new
state and (resource, error). -/
def Delete (s : Datastore Spec) (kind name rv : String) :
    Datastore Spec × Option (Resource Spec) × Option Error :=
  match s.lookup kind name with
  | none => (s, none, some (.NotFound kind name s.notFoundCause))
  | some cur =>
    if rv ≠ "" ∧ rv ≠ cur.ResourceVersion then
      (s, none, some (.Conflict kind name))
    else
      ({ s with
          items := s.items.filter (fun x => !(x.Kind == kind && x.Name == name)),
          revision := s.revision + 1 },
        some cur, none)

/-- Modelled from the spec: the type of a Watch Event; the `watch` package is
missing. -/
inductive EventType where
  | Added
  | Modified
  | Deleted
  | Error
deriving DecidableEq, Repr

/-- Modelled from the spec: a Watch Event, with its type, the new state `Object`
(absent for Deleted) and the prior state `Previous` (present for Modified and
Deleted); the `watch` package is missing. -/
structure Event (Spec : Type) where
  type : EventType
  Object : Option (Resource Spec)
  Previous : Option (Resource Spec)
deriving DecidableEq, Repr

/-- A mutating call on the client, with its arguments. -/
inductive Mutation (Spec : Type) where
  | Create (r : Resource Spec) (uid : String) (now : Nat)
  | Update (r : Resource Spec)
  | Delete (kind name rv : String)
deriving DecidableEq, Repr

/-- Modelled from the spec: the effect of one mutating call on the store together
with the watch event of the change it makes, if it makes one: a successful Create
gives Added with the new object, a successful Update gives Modified with the
previous and the new object, a successful Delete gives Deleted with the previous
object; a failed call gives no event. The watch backend is missing. -/
def step (s : Datastore Spec) : Mutation Spec → Datastore Spec × Option (Event Spec)
  | .Create r uid now =>
    match Create s r uid now with
    | (s2, some stored, none) => (s2, some { type := .Added, Object := some stored, Previous := none })
    | (s2, _, _) => (s2, none)
  | .Update r =>
    match Update s r with
    | (s2, some stored, none) =>
      (s2, some { type := .Modified, Object := some stored, Previous := s.lookup r.Kind r.Name })
    | (s2, _, _) => (s2, none)
  | .Delete kind name rv =>
    match Delete s kind name rv with
    | (s2, some last, none) => (s2, some { type := .Deleted, Object := none, Previous := some last })
    | (s2, _, _) => (s2, none)

/-- Modelled from the spec: a store together with the history of its changes, each
with the revision at which it was made, oldest first; the history kept by the
backing store is missing, and is taken to reach back to the start. -/
structure Client (Spec : Type) where
  store : Datastore Spec
  log : List (Nat × Event Spec)
deriving DecidableEq, Repr

/-- A client on a store with no resource and no history. -/
def newClient (Spec : Type) (notFoundCause : String) : Client Spec :=
  { store := { items := [], revision := 0, notFoundCause := notFoundCause }, log := [] }

/-- The client after one mutating call: the store moves by `step`, and the change,
if any, is recorded at the revision the store assigned to it. -/
def Client.apply (c : Client Spec) (m : Mutation Spec) : Client Spec :=
  match step c.store m with
  | (s2, some e) => { store := s2, log := c.log ++ [(s2.revision, e)] }
  | (s2, none) => { store := s2, log := c.log }

/-- The client after a sequence of mutating calls, oldest first. -/
def Client.run (c : Client Spec) (ms : List (Mutation Spec)) : Client Spec :=
  ms.foldl Client.apply c

/-- The recorded changes made strictly after revision `V`, with their revisions. -/
def watchEntries (c : Client Spec) (V : Nat) : List (Nat × Event Spec) :=
  c.log.filter (fun x => decide (V < x.1))

/-- Modelled from the spec: `Watch` started with resume revision `V`, which is
missing: the events of every change strictly after `V`, in the order of the
history, none for the state already current at `V`. `V` is the number that the
resume token denotes. Watches with no revision, key filters and the Error event
are not covered. -/
def Watch (c : Client Spec) (V : Nat) : List (Event Spec) :=
  (watchEntries c V).map Prod.snd

/-- The events of the changes made by a sequence of mutating calls on a store, one
for each call that succeeds, in the order of the calls. -/
def mutationEvents (s : Datastore Spec) : List (Mutation Spec) → List (Event Spec)
  | [] => []
  | m :: ms =>
    match step s m with
    | (s2, some e) => e :: mutationEvents s2 ms
    | (s2, none) => mutationEvents s2 ms

/-- An event matches a mutating call made on a store when it has the type of the
call and carries the states before and after it: Added carries the resource Create
returned, on a key not live before; Modified carries the resource live before the
call and the one Update returned; Deleted carries the resource live before the
call, which Delete returned. -/
def eventMatches (s : Datastore Spec) (m : Mutation Spec) (e : Event Spec) : Prop :=
  match m with
  | .Create r uid now =>
    e.type = .Added ∧ e.Object = (Create s r uid now).2.1 ∧ e.Object ≠ none
      ∧ e.Previous = none ∧ (Get s r.Kind r.Name).1 = none
  | .Update r =>
    e.type = .Modified ∧ e.Previous = (Get s r.Kind r.Name).1 ∧ e.Previous ≠ none
      ∧ e.Object = (Update s r).2.1 ∧ e.Object ≠ none
  | .Delete kind name rv =>
    e.type = .Deleted ∧ e.Previous = (Get s kind name).1 ∧ e.Previous ≠ none
      ∧ e.Previous = (Delete s kind name rv).2.1 ∧ e.Object = none

end

/-- The BGPPeer `bgppeer-1` with `spec1`, as handed to Create in the watch test. -/
def bgppeer1 : Resource String :=
  { Kind := "BGPPeer", Name := "bgppeer-1", ResourceVersion := "", UID := "",
    CreationTimestamp := 0, Spec := "node1 10.0.0.1 6512" }

/-- The BGPPeer `bgppeer-2` with `spec2`, as handed to Create in the watch test. -/
def bgppeer2 : Resource String :=
  { Kind := "BGPPeer", Name := "bgppeer-2", ResourceVersion := "", UID := "",
    CreationTimestamp := 0, Spec := "node2 20.0.0.1 6511" }

/-- The calls of the watch test up to the first check: Create `bgppeer-1`, Create
`bgppeer-2`, Delete `bgppeer-1`. -/
def watchTestCalls : List (Mutation String) :=
  [.Create bgppeer1 "uid-1" 1500000000, .Create bgppeer2 "uid-2" 1500000001,
   .Delete "BGPPeer" "bgppeer-1" ""]

end clientv3

end Calico

/-! The Profile update processor: theorems -/

namespace Calico.updateprocessors

open Calico.model

section
variable {V2Rule V1Rule : Type}

/-- The append loop computes the element-wise map, whatever the slice it starts
from. -/
theorem foldl_append_eq_map (conv : V2Rule → V1Rule) (rs : List V2Rule) (acc : List V1Rule) :
    rs.foldl (fun out r => out ++ [conv r]) acc = acc ++ rs.map conv := by
  induction rs generalizing acc with
  | nil => simp
  | cons r rest ih => simp [List.foldl_cons, ih]

/-- The append loop from the nil slice is the element-wise map. -/
theorem appendConverted_eq_map (conv : V2Rule → V1Rule) (rs : List V2Rule) :
    appendConverted conv rs = rs.map conv := by
  simp [appendConverted, foldl_append_eq_map]

/-- On a key of the processor's kind with a name, `Process` reaches the value
handling: the result is the panic of the conversion, or the two pairs built from
the converted profile. -/
theorem Process_valid_key (conv : V2Rule → V1Rule) (rk : ResourceKey)
    (v : Value V2Rule V1Rule) (rev : Revision)
    (hkind : rk.Kind = apiv2.KindProfile) (hname : rk.Name ≠ "") :
    Process conv NewProfileUpdateProcessor { Key := .resourceKey rk, Value := v, Revision := rev }
      = if !v.isNil then
          match convertProfileV2ToV1Value conv v with
          | .panic msg => .panic msg
          | .ret (v1profile, _) =>
            .ret (some (buildKVPairs ⟨⟨rk.Name⟩⟩ ⟨⟨rk.Name⟩⟩ v1profile rev), none)
        else .ret (some (buildKVPairs ⟨⟨rk.Name⟩⟩ ⟨⟨rk.Name⟩⟩ none rev), none) := by
  simp [Process, Key.assertResourceKey, NewProfileUpdateProcessor, hkind, hname]

/-- C1: for a key of kind Profile with a non-empty name and a nil value (a
deletion), whatever the input revision, `Process` returns a nil error and exactly
two KV pairs, keyed `ProfileLabelsKey{Name}` and `ProfileRulesKey{Name}`, both with
a nil value and an empty revision. -/
theorem Process_deletion (conv : V2Rule → V1Rule) (rk : ResourceKey) (rev : Revision)
    (hkind : rk.Kind = apiv2.KindProfile) (hname : rk.Name ≠ "") :
    Process conv NewProfileUpdateProcessor
        { Key := .resourceKey rk, Value := .nil, Revision := rev }
      = .ret (some [ { Key := .profileLabelsKey ⟨⟨rk.Name⟩⟩, Value := .nil, Revision := "" },
                     { Key := .profileRulesKey ⟨⟨rk.Name⟩⟩, Value := .nil, Revision := "" } ],
              none) := by
  rw [Process_valid_key conv rk _ rev hkind hname]
  simp [Value.isNil, buildKVPairs]

/-- Witness of C1: deleting the profile `prof1` at revision `42`. -/
theorem Process_deletion_witness :
    Process (fun n : Nat => n + 10) NewProfileUpdateProcessor
        { Key := .resourceKey { Name := "prof1", Namespace := "", Kind := "Profile" },
          Value := .nil, Revision := "42" }
      = .ret (some [ { Key := .profileLabelsKey ⟨⟨"prof1"⟩⟩, Value := .nil, Revision := "" },
                     { Key := .profileRulesKey ⟨⟨"prof1"⟩⟩, Value := .nil, Revision := "" } ],
              none) :=
  Process_deletion (fun n : Nat => n + 10)
    { Name := "prof1", Namespace := "", Kind := "Profile" } "42" rfl (by decide)

/-- C2: for a key of kind Profile with a non-empty name and a non-nil value that is
not a `*apiv2.Profile`, the conversion fails with an error, and `Process` returns a
nil error and exactly the list of KV pairs it returns for the same key with a nil
value: the two nil-valued pairs of a deletion. -/
theorem Process_conversion_failure_as_deletion (conv : V2Rule → V1Rule) (rk : ResourceKey)
    (v : Value V2Rule V1Rule) (rev revDel : Revision)
    (hkind : rk.Kind = apiv2.KindProfile) (hname : rk.Name ≠ "")
    (hnonnil : v.isNil = false) (hnotprofile : ∀ p, v ≠ .v2Profile p) :
    convertProfileV2ToV1Value conv v
        = .ret (none, some "Value is not a valid Profile resource value")
    ∧ Process conv NewProfileUpdateProcessor
          { Key := .resourceKey rk, Value := v, Revision := rev }
        = Process conv NewProfileUpdateProcessor
          { Key := .resourceKey rk, Value := .nil, Revision := revDel }
    ∧ Process conv NewProfileUpdateProcessor
          { Key := .resourceKey rk, Value := v, Revision := rev }
        = .ret (some [ { Key := .profileLabelsKey ⟨⟨rk.Name⟩⟩, Value := .nil, Revision := "" },
                       { Key := .profileRulesKey ⟨⟨rk.Name⟩⟩, Value := .nil, Revision := "" } ],
                none) := by
  have hconv : convertProfileV2ToV1Value conv v
      = .ret (none, some "Value is not a valid Profile resource value") := by
    cases v with
    | v2Profile p => exact absurd rfl (hnotprofile p)
    | nil => rfl
    | labels m => rfl
    | profileRules r => rfl
    | other t => rfl
  have hv : Process conv NewProfileUpdateProcessor
      { Key := .resourceKey rk, Value := v, Revision := rev }
      = .ret (some [ { Key := .profileLabelsKey ⟨⟨rk.Name⟩⟩, Value := .nil, Revision := "" },
                     { Key := .profileRulesKey ⟨⟨rk.Name⟩⟩, Value := .nil, Revision := "" } ],
              none) := by
    rw [Process_valid_key conv rk v rev hkind hname, hconv]
    simp [hnonnil, buildKVPairs]
  refine ⟨hconv, ?_, hv⟩
  rw [hv, Process_valid_key conv rk .nil revDel hkind hname]
  simp [Value.isNil, buildKVPairs]

/-- Witness of C2: a string stored under the profile key `prof1`. -/
theorem Process_conversion_failure_as_deletion_witness :
    convertProfileV2ToV1Value (fun n : Nat => n + 10) (.other "string")
        = .ret (none, some "Value is not a valid Profile resource value")
    ∧ Process (fun n : Nat => n + 10) NewProfileUpdateProcessor
          { Key := .resourceKey { Name := "prof1", Namespace := "", Kind := "Profile" },
            Value := .other "string", Revision := "42" }
        = Process (fun n : Nat => n + 10) NewProfileUpdateProcessor
          { Key := .resourceKey { Name := "prof1", Namespace := "", Kind := "Profile" },
            Value := .nil, Revision := "43" }
    ∧ Process (fun n : Nat => n + 10) NewProfileUpdateProcessor
          { Key := .resourceKey { Name := "prof1", Namespace := "", Kind := "Profile" },
            Value := .other "string", Revision := "42" }
        = .ret (some [ { Key := .profileLabelsKey ⟨⟨"prof1"⟩⟩, Value := .nil, Revision := "" },
                       { Key := .profileRulesKey ⟨⟨"prof1"⟩⟩, Value := .nil, Revision := "" } ],
                none) :=
  Process_conversion_failure_as_deletion (fun n : Nat => n + 10)
    { Name := "prof1", Namespace := "", Kind := "Profile" } (.other "string") "42" "43"
    rfl (by decide) rfl (by intro p h; cases h)

/-- The keys `Process` returns on a key of kind Profile with a name, for a value
that is nil, a profile, or not convertible. -/
theorem resultKeys_Process_valid (conv : V2Rule → V1Rule) (rk : ResourceKey)
    (v : Value V2Rule V1Rule) (rev : Revision)
    (hkind : rk.Kind = apiv2.KindProfile) (hname : rk.Name ≠ "")
    (hv : v ≠ .v2Profile none) :
    resultKeys (Process conv NewProfileUpdateProcessor
        { Key := .resourceKey rk, Value := v, Revision := rev })
      = some [.profileLabelsKey ⟨⟨rk.Name⟩⟩, .profileRulesKey ⟨⟨rk.Name⟩⟩] := by
  rw [Process_valid_key conv rk v rev hkind hname]
  cases v with
  | v2Profile p =>
    cases p with
    | none => exact absurd rfl hv
    | some p => simp [Value.isNil, convertProfileV2ToV1Value, buildKVPairs, resultKeys]
  | nil => simp [Value.isNil, buildKVPairs, resultKeys]
  | labels m => simp [Value.isNil, convertProfileV2ToV1Value, buildKVPairs, resultKeys]
  | profileRules r => simp [Value.isNil, convertProfileV2ToV1Value, buildKVPairs, resultKeys]
  | other t => simp [Value.isNil, convertProfileV2ToV1Value, buildKVPairs, resultKeys]

/-- C3: for a key of kind Profile with a non-empty name, any two values (each nil, a
profile, or a value that does not convert) and any two revisions, the ordered list
of keys `Process` returns is the same, namely the labels key then the rules key;
so the keys of a deletion are exactly the keys of the present profile. -/
theorem Process_static_key_set (conv : V2Rule → V1Rule) (rk : ResourceKey)
    (v1 v2 : Value V2Rule V1Rule) (rev1 rev2 : Revision)
    (hkind : rk.Kind = apiv2.KindProfile) (hname : rk.Name ≠ "")
    (hv1 : v1 ≠ .v2Profile none) (hv2 : v2 ≠ .v2Profile none) :
    resultKeys (Process conv NewProfileUpdateProcessor
        { Key := .resourceKey rk, Value := v1, Revision := rev1 })
      = resultKeys (Process conv NewProfileUpdateProcessor
        { Key := .resourceKey rk, Value := v2, Revision := rev2 })
    ∧ resultKeys (Process conv NewProfileUpdateProcessor
        { Key := .resourceKey rk, Value := v1, Revision := rev1 })
      = some [.profileLabelsKey ⟨⟨rk.Name⟩⟩, .profileRulesKey ⟨⟨rk.Name⟩⟩] := by
  rw [resultKeys_Process_valid conv rk v1 rev1 hkind hname hv1,
    resultKeys_Process_valid conv rk v2 rev2 hkind hname hv2]
  exact ⟨rfl, rfl⟩

/-- Witness of C3: the profile `prof1` present at revision `7` and deleted at
revision `8`. -/
theorem Process_static_key_set_witness :
    resultKeys (Process (fun n : Nat => n + 10) NewProfileUpdateProcessor
        { Key := .resourceKey { Name := "prof1", Namespace := "", Kind := "Profile" },
          Value := .v2Profile (some ⟨⟨[1, 2], [3], some [("a", "b")]⟩⟩),
          Revision := "7" })
      = resultKeys (Process (fun n : Nat => n + 10) NewProfileUpdateProcessor
        { Key := .resourceKey { Name := "prof1", Namespace := "", Kind := "Profile" },
          Value := .nil, Revision := "8" })
    ∧ resultKeys (Process (fun n : Nat => n + 10) NewProfileUpdateProcessor
        { Key := .resourceKey { Name := "prof1", Namespace := "", Kind := "Profile" },
          Value := .v2Profile (some ⟨⟨[1, 2], [3], some [("a", "b")]⟩⟩),
          Revision := "7" })
      = some [.profileLabelsKey ⟨⟨"prof1"⟩⟩, .profileRulesKey ⟨⟨"prof1"⟩⟩] :=
  Process_static_key_set (fun n : Nat => n + 10)
    { Name := "prof1", Namespace := "", Kind := "Profile" }
    (.v2Profile (some ⟨⟨[1, 2], [3], some [("a", "b")]⟩⟩))
    .nil "7" "8" rfl (by decide) (by intro h; cases h) (by intro h; cases h)

/-- C4: for a key of kind Profile with a non-empty name, a value that is a profile
`p` and a revision `r`, `Process` returns a nil error and two KV pairs: first key
`ProfileLabelsKey{Name}`, value `p.Spec.LabelsToApply`, revision `r`; second key
`ProfileRulesKey{Name}`, value the converted rules of `p`, revision `r`. The
converted rules are those of the v1 profile the conversion returns: inbound the
converter applied to each ingress rule of `p` in order, outbound the converter
applied to each egress rule in order. -/
theorem Process_present_profile (conv : V2Rule → V1Rule) (rk : ResourceKey)
    (p : apiv2.Profile V2Rule) (r : Revision)
    (hkind : rk.Kind = apiv2.KindProfile) (hname : rk.Name ≠ "") :
    convertProfileV2ToV1Value conv (.v2Profile (some p) : Value V2Rule V1Rule)
        = .ret (some { Rules := { InboundRules := p.Spec.IngressRules.map conv,
                                  OutboundRules := p.Spec.EgressRules.map conv },
                       Labels := p.Spec.LabelsToApply }, none)
    ∧ Process conv NewProfileUpdateProcessor
          { Key := .resourceKey rk, Value := .v2Profile (some p), Revision := r }
        = .ret (some [ { Key := .profileLabelsKey ⟨⟨rk.Name⟩⟩,
                         Value := .labels p.Spec.LabelsToApply, Revision := r },
                       { Key := .profileRulesKey ⟨⟨rk.Name⟩⟩,
                         Value := .profileRules
                           { InboundRules := p.Spec.IngressRules.map conv,
                             OutboundRules := p.Spec.EgressRules.map conv },
                         Revision := r } ],
                none) := by
  have hconv : convertProfileV2ToV1Value conv (.v2Profile (some p) : Value V2Rule V1Rule)
      = .ret (some { Rules := { InboundRules := p.Spec.IngressRules.map conv,
                                OutboundRules := p.Spec.EgressRules.map conv },
                     Labels := p.Spec.LabelsToApply }, none) := by
    simp [convertProfileV2ToV1Value, appendConverted_eq_map]
  refine ⟨hconv, ?_⟩
  rw [Process_valid_key conv rk _ r hkind hname, hconv]
  simp [Value.isNil, buildKVPairs]

/-- Witness of C4: the profile `prof1` with ingress rules 1 and 2 and egress rule 3
at revision `7`, under a converter that adds ten. -/
theorem Process_present_profile_witness :
    convertProfileV2ToV1Value (fun n : Nat => n + 10)
        (.v2Profile (some ⟨⟨[1, 2], [3], some [("a", "b")]⟩⟩) : Value Nat Nat)
        = .ret (some { Rules := { InboundRules := [11, 12], OutboundRules := [13] },
                       Labels := some [("a", "b")] }, none)
    ∧ Process (fun n : Nat => n + 10) NewProfileUpdateProcessor
          { Key := .resourceKey { Name := "prof1", Namespace := "", Kind := "Profile" },
            Value := .v2Profile (some ⟨⟨[1, 2], [3], some [("a", "b")]⟩⟩), Revision := "7" }
        = .ret (some [ { Key := .profileLabelsKey ⟨⟨"prof1"⟩⟩,
                         Value := .labels (some [("a", "b")]), Revision := "7" },
                       { Key := .profileRulesKey ⟨⟨"prof1"⟩⟩,
                         Value := .profileRules
                           { InboundRules := [11, 12], OutboundRules := [13] },
                         Revision := "7" } ],
                none) :=
  Process_present_profile (fun n : Nat => n + 10)
    { Name := "prof1", Namespace := "", Kind := "Profile" }
    ⟨⟨[1, 2], [3], some [("a", "b")]⟩⟩ "7" rfl (by decide)

/-- C5: the conversion of a profile `p` succeeds, and in its result `InboundRules` is
the element-wise image of `p.Spec.IngressRules` under the rule converter and
`OutboundRules` that of `p.Spec.EgressRules`: same lengths, and the i-th output
rule is the converter applied to the i-th input rule of the same direction. -/
theorem convertProfileV2ToV1Value_rules (conv : V2Rule → V1Rule) (p : apiv2.Profile V2Rule) :
    ∃ v1 : model.Profile V1Rule,
      convertProfileV2ToV1Value conv (.v2Profile (some p) : Value V2Rule V1Rule)
          = .ret (some v1, none)
      ∧ v1.Rules.InboundRules = p.Spec.IngressRules.map conv
      ∧ v1.Rules.OutboundRules = p.Spec.EgressRules.map conv
      ∧ v1.Rules.InboundRules.length = p.Spec.IngressRules.length
      ∧ v1.Rules.OutboundRules.length = p.Spec.EgressRules.length
      ∧ (∀ i : Nat, v1.Rules.InboundRules[i]? = (p.Spec.IngressRules[i]?).map conv)
      ∧ (∀ i : Nat, v1.Rules.OutboundRules[i]? = (p.Spec.EgressRules[i]?).map conv) := by
  refine ⟨_, rfl, ?_, ?_, ?_, ?_, ?_, ?_⟩ <;> simp [appendConverted_eq_map]

/-- C6: when the key is not a `model.ResourceKey`, or is one whose kind is not
Profile, `Process` returns the error `Incorrect key type - expecting resource of
kind Profile` and a nil list, whatever the value and the revision. -/
theorem Process_incorrect_key_type (conv : V2Rule → V1Rule) (kvp : KVPair V2Rule V1Rule)
    (hkey : ∀ rk, kvp.Key = .resourceKey rk → rk.Kind ≠ apiv2.KindProfile) :
    Process conv NewProfileUpdateProcessor kvp
      = .ret (none, some "Incorrect key type - expecting resource of kind Profile") := by
  obtain ⟨key, v, rev⟩ := kvp
  cases key with
  | resourceKey rk =>
    have h : rk.Kind ≠ apiv2.KindProfile := hkey rk rfl
    simp [Process, Key.assertResourceKey, NewProfileUpdateProcessor, h]
    rfl
  | nil => rfl
  | profileLabelsKey k => rfl
  | profileRulesKey k => rfl
  | other t => rfl

/-- Witness of C6: a resource key of kind `BGPPeer` carrying a profile. -/
theorem Process_incorrect_key_type_witness :
    Process (fun n : Nat => n + 10) NewProfileUpdateProcessor
        { Key := .resourceKey { Name := "prof1", Namespace := "", Kind := "BGPPeer" },
          Value := .v2Profile (some ⟨⟨[1, 2], [3], none⟩⟩), Revision := "7" }
      = .ret (none, some "Incorrect key type - expecting resource of kind Profile") :=
  Process_incorrect_key_type (fun n : Nat => n + 10)
    { Key := .resourceKey { Name := "prof1", Namespace := "", Kind := "BGPPeer" },
      Value := .v2Profile (some ⟨⟨[1, 2], [3], none⟩⟩), Revision := "7" }
    (by intro rk h; cases h; decide)

/-- C7: the comment on the processor type says a Profile is broken into 3 KV pairs
(Tags, Labels, Rules); on the profile `prof1` with a valid key `Process` returns
two KV pairs, not three, keyed by the labels key and the rules key, and none for
Tags. -/
theorem Process_three_pairs_counterexample :
    resultLength (Process (fun n : Nat => n + 10) NewProfileUpdateProcessor
        { Key := .resourceKey { Name := "prof1", Namespace := "", Kind := "Profile" },
          Value := .v2Profile (some ⟨⟨[1, 2], [3], some [("a", "b")]⟩⟩), Revision := "7" })
      = some 2
    ∧ resultLength (Process (fun n : Nat => n + 10) NewProfileUpdateProcessor
        { Key := .resourceKey { Name := "prof1", Namespace := "", Kind := "Profile" },
          Value := .v2Profile (some ⟨⟨[1, 2], [3], some [("a", "b")]⟩⟩), Revision := "7" })
      ≠ some 3
    ∧ resultKeys (Process (fun n : Nat => n + 10) NewProfileUpdateProcessor
        { Key := .resourceKey { Name := "prof1", Namespace := "", Kind := "Profile" },
          Value := .v2Profile (some ⟨⟨[1, 2], [3], some [("a", "b")]⟩⟩), Revision := "7" })
      = some [.profileLabelsKey ⟨⟨"prof1"⟩⟩, .profileRulesKey ⟨⟨"prof1"⟩⟩] := by
  refine ⟨?_, ?_, ?_⟩ <;> decide

/-- The number and the keys of the pairs `Process` returns for a key of kind Profile
with a non-empty name and a value that is a profile: two pairs, the first keyed
by the labels key and the second by the rules key. -/
theorem Process_two_pairs (conv : V2Rule → V1Rule) (rk : ResourceKey)
    (p : apiv2.Profile V2Rule) (r : Revision)
    (hkind : rk.Kind = apiv2.KindProfile) (hname : rk.Name ≠ "") :
    resultLength (Process conv NewProfileUpdateProcessor
        ({ Key := .resourceKey rk, Value := .v2Profile (some p), Revision := r } :
          KVPair V2Rule V1Rule)) = some 2
    ∧ resultKeys (Process conv NewProfileUpdateProcessor
        ({ Key := .resourceKey rk, Value := .v2Profile (some p), Revision := r } :
          KVPair V2Rule V1Rule))
      = some [.profileLabelsKey ⟨⟨rk.Name⟩⟩, .profileRulesKey ⟨⟨rk.Name⟩⟩] := by
  rw [Process_valid_key conv rk _ r hkind hname]
  simp [Value.isNil, convertProfileV2ToV1Value, buildKVPairs, resultLength, resultKeys]

/-- The two pairs returned for the profile `prof1` at revision `7`. -/
theorem Process_two_pairs_witness :
    resultLength (Process (fun n : Nat => n + 10) NewProfileUpdateProcessor
        ({ Key := .resourceKey { Name := "prof1", Namespace := "", Kind := "Profile" },
           Value := .v2Profile (some ⟨⟨[1, 2], [3], some [("a", "b")]⟩⟩), Revision := "7" } :
          KVPair Nat Nat)) = some 2
    ∧ resultKeys (Process (fun n : Nat => n + 10) NewProfileUpdateProcessor
        ({ Key := .resourceKey { Name := "prof1", Namespace := "", Kind := "Profile" },
           Value := .v2Profile (some ⟨⟨[1, 2], [3], some [("a", "b")]⟩⟩), Revision := "7" } :
          KVPair Nat Nat))
      = some [.profileLabelsKey ⟨⟨"prof1"⟩⟩, .profileRulesKey ⟨⟨"prof1"⟩⟩] :=
  Process_two_pairs (fun n : Nat => n + 10)
    { Name := "prof1", Namespace := "", Kind := "Profile" }
    ⟨⟨[1, 2], [3], some [("a", "b")]⟩⟩ "7" rfl (by decide)

/-- The result of the stateful `Process` is the result of `Process` on the struct
behind the receiver: it does not read the log. -/
theorem ProcessStateful_result (conv : V2Rule → V1Rule) (w : World)
    (kvp : KVPair V2Rule V1Rule) :
    (ProcessStateful conv w kvp).2 = Process conv w.pup kvp := by
  obtain ⟨key, v, rev⟩ := kvp
  unfold ProcessStateful Process
  cases key with
  | resourceKey rk =>
    simp only [Key.assertResourceKey]
    split_ifs
    · rfl
    · rfl
    · rfl
    · cases hc : convertProfileV2ToV1Value conv v with
      | panic msg => rfl
      | ret a => rfl
    · rfl
  | nil => rfl
  | profileLabelsKey k => rfl
  | profileRulesKey k => rfl
  | other t => rfl

/-- The stateful `Process` leaves the struct behind the receiver as it was. -/
theorem ProcessStateful_pup (conv : V2Rule → V1Rule) (w : World)
    (kvp : KVPair V2Rule V1Rule) :
    (ProcessStateful conv w kvp).1.pup = w.pup := by
  obtain ⟨key, v, rev⟩ := kvp
  unfold ProcessStateful
  cases key with
  | resourceKey rk =>
    simp only [Key.assertResourceKey]
    split_ifs
    · rfl
    · rfl
    · rfl
    · cases hc : convertProfileV2ToV1Value conv v with
      | panic msg => rfl
      | ret a =>
        obtain ⟨v1profile, err⟩ := a
        cases err <;> rfl
    · rfl
  | nil => rfl
  | profileLabelsKey k => rfl
  | profileRulesKey k => rfl
  | other t => rfl

/-- A sequence of calls leaves the struct behind the receiver as it was. -/
theorem runCalls_pup (conv : V2Rule → V1Rule) (calls : List (Call V2Rule V1Rule))
    (w : World) : (runCalls conv w calls).pup = w.pup := by
  induction calls generalizing w with
  | nil => rfl
  | cons c rest ih =>
    have hrun : runCalls conv w (c :: rest) = runCalls conv (applyCall conv w c) rest := rfl
    rw [hrun, ih]
    cases c with
    | Process kvp => exact ProcessStateful_pup conv w kvp
    | OnSyncerStarting => rfl

/-- C8: the result of `Process` on an input is the same after any two histories of
earlier calls (`Process` on any inputs, `OnSyncerStarting`) on the processor, and
the same for two calls in a row on identical input, although the calls may write
warnings to the log; the result is a function of the struct behind the receiver
and the input alone; `Process` and any history of calls leave that struct
unchanged, and `OnSyncerStarting` leaves the processor unchanged. -/
theorem Process_pure (conv : V2Rule → V1Rule) (w : World)
    (before1 before2 : List (Call V2Rule V1Rule)) (kvp : KVPair V2Rule V1Rule) :
    (ProcessStateful conv (runCalls conv w before1) kvp).2
        = (ProcessStateful conv (runCalls conv w before2) kvp).2
    ∧ (ProcessStateful conv (ProcessStateful conv w kvp).1 kvp).2
        = (ProcessStateful conv w kvp).2
    ∧ (ProcessStateful conv (applyCall conv w .OnSyncerStarting) kvp).2
        = (ProcessStateful conv w kvp).2
    ∧ (ProcessStateful conv w kvp).2 = Process conv w.pup kvp
    ∧ (ProcessStateful conv w kvp).1.pup = w.pup
    ∧ (runCalls conv w before1).pup = w.pup
    ∧ applyCall conv w (.OnSyncerStarting : Call V2Rule V1Rule) = w
    ∧ OnSyncerStarting w.pup = w.pup := by
  refine ⟨?_, ?_, ?_, ProcessStateful_result conv w kvp, ProcessStateful_pup conv w kvp,
    runCalls_pup conv before1 w, rfl, rfl⟩
  · rw [ProcessStateful_result, ProcessStateful_result, runCalls_pup, runCalls_pup]
  · rw [ProcessStateful_result, ProcessStateful_result, ProcessStateful_pup]
  · rfl

/-- The result of `Process` on a bad key: a nil list and one of the two key
errors, whatever the value and the revision. -/
theorem Process_bad_key (conv : V2Rule → V1Rule) (kvp : KVPair V2Rule V1Rule)
    (hbad : isBadProfileKey kvp.Key = true) :
    Process conv NewProfileUpdateProcessor kvp
        = .ret (none, some "Incorrect key type - expecting resource of kind Profile")
    ∨ Process conv NewProfileUpdateProcessor kvp
        = .ret (none, some "Missing Name field to create a v1 Profile Key") := by
  obtain ⟨key, v, rev⟩ := kvp
  cases key with
  | resourceKey rk =>
    by_cases hkind : rk.Kind = apiv2.KindProfile
    · have hname : rk.Name = "" := by simpa [isBadProfileKey, hkind] using hbad
      right
      simp [Process, Key.assertResourceKey, NewProfileUpdateProcessor, hkind, hname]
    · left
      simp [Process, Key.assertResourceKey, NewProfileUpdateProcessor, hkind]
      rfl
  | nil => left; rfl
  | profileLabelsKey k => left; rfl
  | profileRulesKey k => left; rfl
  | other t => left; rfl

/-- The result of `Process` on a key that is not bad: the panic of the nil pointer
dereference when the value is a nil `*apiv2.Profile`, two KV pairs and a nil error
otherwise. -/
theorem Process_good_key (conv : V2Rule → V1Rule) (kvp : KVPair V2Rule V1Rule)
    (hgood : isBadProfileKey kvp.Key = false) :
    (kvp.Value = .v2Profile none ∧ ∃ msg, Process conv NewProfileUpdateProcessor kvp = .panic msg)
    ∨ (kvp.Value ≠ .v2Profile none
        ∧ ∃ a b, Process conv NewProfileUpdateProcessor kvp = .ret (some [a, b], none)) := by
  obtain ⟨key, v, rev⟩ := kvp
  cases key with
  | resourceKey rk =>
    have hkind : rk.Kind = apiv2.KindProfile := by
      by_contra h
      simp [isBadProfileKey, h] at hgood
    have hname : rk.Name ≠ "" := by
      intro h
      simp [isBadProfileKey, h] at hgood
    rw [Process_valid_key conv rk v rev hkind hname]
    cases v with
    | v2Profile p =>
      cases p with
      | none => exact Or.inl ⟨rfl, _, rfl⟩
      | some p => exact Or.inr ⟨(by intro h; cases h), _, _, rfl⟩
    | nil => exact Or.inr ⟨(by intro h; cases h), _, _, rfl⟩
    | labels m => exact Or.inr ⟨(by intro h; cases h), _, _, rfl⟩
    | profileRules r => exact Or.inr ⟨(by intro h; cases h), _, _, rfl⟩
    | other t => exact Or.inr ⟨(by intro h; cases h), _, _, rfl⟩
  | nil => simp [isBadProfileKey] at hgood
  | profileLabelsKey k => simp [isBadProfileKey] at hgood
  | profileRulesKey k => simp [isBadProfileKey] at hgood
  | other t => simp [isBadProfileKey] at hgood

/-- Whether `Process` returns an error is decided by the key alone. -/
theorem returnsError_Process (conv : V2Rule → V1Rule) (kvp : KVPair V2Rule V1Rule) :
    returnsError (Process conv NewProfileUpdateProcessor kvp) = isBadProfileKey kvp.Key := by
  cases hk : isBadProfileKey kvp.Key with
  | true =>
    rcases Process_bad_key conv kvp hk with h | h <;> rw [h] <;> rfl
  | false =>
    rcases Process_good_key conv kvp hk with ⟨_, msg, h⟩ | ⟨_, a, b, h⟩ <;> rw [h] <;> rfl

/-- C12: with a key of kind Profile and a non-empty name, a value that is a nil
`*apiv2.Profile` passes the `Value != nil` guard and makes `Process` panic on the
nil pointer: on a key that is not bad it returns neither an error nor a list of
two entries, whereas a nil value and a value of another type under the same key
give the two deletion pairs. -/
theorem Process_nil_profile_pointer_counterexample :
    isBadProfileKey (.resourceKey { Name := "prof1", Namespace := "", Kind := "Profile" }) = false
    ∧ Process (fun n : Nat => n + 10) NewProfileUpdateProcessor
        ({ Key := .resourceKey { Name := "prof1", Namespace := "", Kind := "Profile" },
           Value := .v2Profile none, Revision := "7" } : KVPair Nat Nat)
      = .panic "runtime error: invalid memory address or nil pointer dereference"
    ∧ returnsError (Process (fun n : Nat => n + 10) NewProfileUpdateProcessor
        ({ Key := .resourceKey { Name := "prof1", Namespace := "", Kind := "Profile" },
           Value := .v2Profile none, Revision := "7" } : KVPair Nat Nat)) = false
    ∧ resultLength (Process (fun n : Nat => n + 10) NewProfileUpdateProcessor
        ({ Key := .resourceKey { Name := "prof1", Namespace := "", Kind := "Profile" },
           Value := .v2Profile none, Revision := "7" } : KVPair Nat Nat)) ≠ some 2
    ∧ resultLength (Process (fun n : Nat => n + 10) NewProfileUpdateProcessor
        ({ Key := .resourceKey { Name := "prof1", Namespace := "", Kind := "Profile" },
           Value := .nil, Revision := "7" } : KVPair Nat Nat)) = some 2
    ∧ resultLength (Process (fun n : Nat => n + 10) NewProfileUpdateProcessor
        ({ Key := .resourceKey { Name := "prof1", Namespace := "", Kind := "Profile" },
           Value := .other "*apiv2.BGPPeer", Revision := "7" } : KVPair Nat Nat)) = some 2 := by
  refine ⟨?_, ?_, ?_, ?_, ?_, ?_⟩ <;> decide

/-- The error behaviour of `Process` on every input: it returns a non-nil error
if and only if the key is bad; whenever it returns an error the returned list is
nil; whenever the key is not bad and the value is not a nil `*apiv2.Profile`
pointer, it returns a nil error and a list of exactly two entries; whether it
returns an error does not depend on the value or the revision; and the error
`Key is not a valid V2 resource key` is never returned. -/
theorem Process_errs_exactly_on_bad_keys (conv : V2Rule → V1Rule)
    (kvp : KVPair V2Rule V1Rule) :
    (returnsError (Process conv NewProfileUpdateProcessor kvp) = true
        ↔ isBadProfileKey kvp.Key = true)
    ∧ (∀ kvs e, Process conv NewProfileUpdateProcessor kvp = .ret (kvs, some e) → kvs = none)
    ∧ (isBadProfileKey kvp.Key = true →
        ∃ e, Process conv NewProfileUpdateProcessor kvp = .ret (none, some e))
    ∧ (kvp.Value ≠ .v2Profile none → isBadProfileKey kvp.Key = false →
        ∃ a b, Process conv NewProfileUpdateProcessor kvp = .ret (some [a, b], none))
    ∧ (∀ v rev, returnsError (Process conv NewProfileUpdateProcessor
          { kvp with Value := v, Revision := rev })
        = returnsError (Process conv NewProfileUpdateProcessor kvp))
    ∧ (∀ kvs, Process conv NewProfileUpdateProcessor kvp
        ≠ .ret (kvs, some "Key is not a valid V2 resource key")) := by
  refine ⟨?_, ?_, ?_, ?_, ?_, ?_⟩
  · rw [returnsError_Process]
  · intro kvs e h
    cases hk : isBadProfileKey kvp.Key with
    | true =>
      rcases Process_bad_key conv kvp hk with h2 | h2 <;> rw [h2] at h <;> cases h <;> rfl
    | false =>
      rcases Process_good_key conv kvp hk with ⟨_, msg, h2⟩ | ⟨_, a, b, h2⟩ <;>
        rw [h2] at h <;> cases h
  · intro hk
    rcases Process_bad_key conv kvp hk with h | h <;> exact ⟨_, h⟩
  · intro hv hk
    rcases Process_good_key conv kvp hk with ⟨h, _⟩ | ⟨_, h⟩
    · exact absurd h hv
    · exact h
  · intro v rev
    rw [returnsError_Process, returnsError_Process]
  · intro kvs h
    cases hk : isBadProfileKey kvp.Key with
    | true =>
      rcases Process_bad_key conv kvp hk with h2 | h2 <;> rw [h2] at h <;> simp at h
    | false =>
      rcases Process_good_key conv kvp hk with ⟨_, msg, h2⟩ | ⟨_, a, b, h2⟩ <;>
        rw [h2] at h <;> cases h

/-- The error behaviour on a key of kind `BGPPeer` (bad) and on the profile `prof1`
under a valid key. -/
theorem Process_errs_exactly_on_bad_keys_witness :
    (∃ e, Process (fun n : Nat => n + 10) NewProfileUpdateProcessor
        ({ Key := .resourceKey { Name := "prof1", Namespace := "", Kind := "BGPPeer" },
           Value := .v2Profile (some ⟨⟨[1, 2], [3], none⟩⟩), Revision := "7" } : KVPair Nat Nat)
        = .ret (none, some e))
    ∧ (∃ a b, Process (fun n : Nat => n + 10) NewProfileUpdateProcessor
        ({ Key := .resourceKey { Name := "prof1", Namespace := "", Kind := "Profile" },
           Value := .v2Profile (some ⟨⟨[1, 2], [3], none⟩⟩), Revision := "7" } : KVPair Nat Nat)
        = .ret (some [a, b], none)) :=
  ⟨(Process_errs_exactly_on_bad_keys (fun n : Nat => n + 10)
      ({ Key := .resourceKey { Name := "prof1", Namespace := "", Kind := "BGPPeer" },
         Value := .v2Profile (some ⟨⟨[1, 2], [3], none⟩⟩), Revision := "7" } :
        KVPair Nat Nat)).2.2.1 (by decide),
   (Process_errs_exactly_on_bad_keys (fun n : Nat => n + 10)
      ({ Key := .resourceKey { Name := "prof1", Namespace := "", Kind := "Profile" },
         Value := .v2Profile (some ⟨⟨[1, 2], [3], none⟩⟩), Revision := "7" } :
        KVPair Nat Nat)).2.2.2.1 (by intro h; cases h) (by decide)⟩

end

end Calico.updateprocessors

/-! The resource client contract: theorems -/

namespace Calico.clientv3

section
variable {Spec : Type}

/-- `Get` succeeds with a resource exactly when the lookup finds it. -/
theorem Get_eq_some_iff (s : Datastore Spec) (kind name : String) (cur : Resource Spec) :
    Get s kind name = (some cur, none) ↔ s.lookup kind name = some cur := by
  unfold Get
  cases h : s.lookup kind name with
  | none => simp
  | some r => simp

/-- `Get` returns no resource exactly when the lookup finds none. -/
theorem Get_fst_eq_none_iff (s : Datastore Spec) (kind name : String) :
    (Get s kind name).1 = none ↔ s.lookup kind name = none := by
  unfold Get
  cases h : s.lookup kind name with
  | none => simp
  | some r => simp

/-- C9: for a stored resource with current revision `cur.ResourceVersion`, an Update
carrying a different, non-empty revision (with UID and creation timestamp set)
fails with the Conflict error `update conflict: Kind(name)`, returns no resource
and leaves the store unchanged: a following Get returns the same value with the
same revision as before. -/
theorem Update_stale_revision_conflict (s : Datastore Spec) (r cur : Resource Spec)
    (hrv : r.ResourceVersion ≠ "") (huid : r.UID ≠ "") (hct : r.CreationTimestamp ≠ 0)
    (hcur : Get s r.Kind r.Name = (some cur, none))
    (hstale : r.ResourceVersion ≠ cur.ResourceVersion) :
    Update s r = (s, none, some (.Conflict r.Kind r.Name))
    ∧ (Error.Conflict r.Kind r.Name).text = "update conflict: " ++ r.Kind ++ "(" ++ r.Name ++ ")"
    ∧ Get (Update s r).1 r.Kind r.Name = (some cur, none)
    ∧ (Get (Update s r).1 r.Kind r.Name).1.map (fun x => x.ResourceVersion)
        = some cur.ResourceVersion := by
  have hlook : s.lookup r.Kind r.Name = some cur := (Get_eq_some_iff s _ _ cur).1 hcur
  have hupd : Update s r = (s, none, some (.Conflict r.Kind r.Name)) := by
    simp [Update, hrv, huid, hct, hlook, Ne.symm hstale]
  refine ⟨hupd, rfl, ?_, ?_⟩
  · rw [hupd]; exact hcur
  · rw [hupd]; simp [hcur]

/-- Witness of C9: the update of `bgppeer-1` with the revision `1` of its creation
when the stored revision is `2`. -/
theorem Update_stale_revision_conflict_witness :
    Update bgppeerStore { bgppeerStored with ResourceVersion := "1", Spec := "node1 10.0.0.1 6512" }
        = (bgppeerStore, none, some (.Conflict "BGPPeer" "bgppeer-1"))
    ∧ (Error.Conflict "BGPPeer" "bgppeer-1").text
        = "update conflict: " ++ "BGPPeer" ++ "(" ++ "bgppeer-1" ++ ")"
    ∧ Get (Update bgppeerStore
          { bgppeerStored with ResourceVersion := "1", Spec := "node1 10.0.0.1 6512" }).1
        "BGPPeer" "bgppeer-1" = (some bgppeerStored, none)
    ∧ (Get (Update bgppeerStore
          { bgppeerStored with ResourceVersion := "1", Spec := "node1 10.0.0.1 6512" }).1
        "BGPPeer" "bgppeer-1").1.map (fun x => x.ResourceVersion) = some "2" :=
  Update_stale_revision_conflict bgppeerStore
    { bgppeerStored with ResourceVersion := "1", Spec := "node1 10.0.0.1 6512" } bgppeerStored
    (by decide) (by decide) (by decide) (by decide) (by decide)

/-- C10: if the resource passed to Update has an empty ResourceVersion, an empty UID
or a zero CreationTimestamp, Update fails with an InvalidInput error naming a field
that is missing, with the message `error with field Metadata.<Field> = <value>
(field must be set for an Update request)`, returns no resource and leaves the
store unchanged; when all three are set and the key does not exist it fails with
NotFound, message `resource does not exist: Kind(name)` followed by the cause. -/
theorem Update_preconditions (s : Datastore Spec) (r : Resource Spec) :
    (r.ResourceVersion = "" ∨ r.UID = "" ∨ r.CreationTimestamp = 0 →
      ∃ e, Update s r = (s, none, some e) ∧
        ((r.ResourceVersion = ""
            ∧ e = .InvalidInput "Metadata.ResourceVersion" "" mustBeSetForUpdate
            ∧ e.text = "error with field Metadata.ResourceVersion = \x27\x27 (field must be set for an Update request)")
        ∨ (r.UID = ""
            ∧ e = .InvalidInput "Metadata.UID" "" mustBeSetForUpdate
            ∧ e.text = "error with field Metadata.UID = \x27\x27 (field must be set for an Update request)")
        ∨ (r.CreationTimestamp = 0
            ∧ e = .InvalidInput "Metadata.CreationTimestamp" zeroTimeText mustBeSetForUpdate
            ∧ e.text = "error with field Metadata.CreationTimestamp = \x270001-01-01 00:00:00 +0000 UTC\x27 (field must be set for an Update request)")))
    ∧ (r.ResourceVersion ≠ "" → r.UID ≠ "" → r.CreationTimestamp ≠ 0 →
        (Get s r.Kind r.Name).1 = none →
        Update s r = (s, none, some (.NotFound r.Kind r.Name s.notFoundCause))
        ∧ (Error.NotFound r.Kind r.Name s.notFoundCause).text
            = "resource does not exist: " ++ r.Kind ++ "(" ++ r.Name ++ ") with error: "
                ++ s.notFoundCause) := by
  constructor
  · intro _
    by_cases hrv : r.ResourceVersion = ""
    · exact ⟨_, by simp [Update, hrv], Or.inl ⟨hrv, rfl, by decide⟩⟩
    · by_cases huid : r.UID = ""
      · exact ⟨_, by simp [Update, hrv, huid], Or.inr (Or.inl ⟨huid, rfl, by decide⟩)⟩
      · by_cases hct : r.CreationTimestamp = 0
        · exact ⟨_, by simp [Update, hrv, huid, hct],
            Or.inr (Or.inr ⟨hct, rfl, by decide⟩)⟩
        · rename_i h
          rcases h with h | h | h
          · exact absurd h hrv
          · exact absurd h huid
          · exact absurd h hct
  · intro hrv huid hct hget
    have hlook : s.lookup r.Kind r.Name = none := (Get_fst_eq_none_iff s _ _).1 hget
    exact ⟨by simp [Update, hrv, huid, hct, hlook], rfl⟩

/-- Witness of C10: an update of the stored `bgppeer-1` without a UID, and an update
of `bgppeer-1` with all three fields set on the empty store. -/
theorem Update_preconditions_witness :
    (∃ e, Update bgppeerStore { bgppeerStored with ResourceVersion := "1234", UID := "" }
          = (bgppeerStore, none, some e) ∧
        (((({ bgppeerStored with ResourceVersion := "1234", UID := "" } :
              Resource String).ResourceVersion = "")
            ∧ e = .InvalidInput "Metadata.ResourceVersion" "" mustBeSetForUpdate
            ∧ e.text = "error with field Metadata.ResourceVersion = \x27\x27 (field must be set for an Update request)")
        ∨ ((({ bgppeerStored with ResourceVersion := "1234", UID := "" } :
              Resource String).UID = "")
            ∧ e = .InvalidInput "Metadata.UID" "" mustBeSetForUpdate
            ∧ e.text = "error with field Metadata.UID = \x27\x27 (field must be set for an Update request)")
        ∨ ((({ bgppeerStored with ResourceVersion := "1234", UID := "" } :
              Resource String).CreationTimestamp = 0)
            ∧ e = .InvalidInput "Metadata.CreationTimestamp" zeroTimeText mustBeSetForUpdate
            ∧ e.text = "error with field Metadata.CreationTimestamp = \x270001-01-01 00:00:00 +0000 UTC\x27 (field must be set for an Update request)")))
    ∧ (Update emptyStore { bgppeerStored with ResourceVersion := "1234" }
          = (emptyStore, none, some (.NotFound "BGPPeer" "bgppeer-1" "key not found"))
        ∧ (Error.NotFound "BGPPeer" "bgppeer-1" "key not found").text
            = "resource does not exist: " ++ "BGPPeer" ++ "(" ++ "bgppeer-1" ++ ") with error: "
                ++ "key not found") :=
  ⟨(Update_preconditions bgppeerStore
      { bgppeerStored with ResourceVersion := "1234", UID := "" }).1 (by decide),
   (Update_preconditions emptyStore { bgppeerStored with ResourceVersion := "1234" }).2
      (by decide) (by decide) (by decide) (by decide)⟩

/-- `Create` either fails and leaves the store as it was, or succeeds, stores the
resource and advances the revision by one. -/
theorem Create_cases (s : Datastore Spec) (r : Resource Spec) (uid : String) (now : Nat) :
    (∃ e, Create s r uid now = (s, none, some e))
    ∨ (∃ s2 stored, Create s r uid now = (s2, some stored, none)
        ∧ s2.revision = s.revision + 1 ∧ s.lookup r.Kind r.Name = none) := by
  unfold Create
  by_cases hrv : r.ResourceVersion ≠ ""
  · rw [if_pos hrv]
    exact Or.inl ⟨_, rfl⟩
  · rw [if_neg hrv]
    cases hl : s.lookup r.Kind r.Name with
    | some cur => exact Or.inl ⟨_, rfl⟩
    | none => exact Or.inr ⟨_, _, rfl, rfl, rfl⟩

/-- `Update` either fails and leaves the store as it was, or succeeds on a live key
and advances the revision by one. -/
theorem Update_cases (s : Datastore Spec) (r : Resource Spec) :
    (∃ e, Update s r = (s, none, some e))
    ∨ (∃ s2 stored cur, Update s r = (s2, some stored, none)
        ∧ s2.revision = s.revision + 1 ∧ s.lookup r.Kind r.Name = some cur) := by
  unfold Update
  by_cases hrv : r.ResourceVersion = ""
  · rw [if_pos hrv]
    exact Or.inl ⟨_, rfl⟩
  · rw [if_neg hrv]
    by_cases huid : r.UID = ""
    · rw [if_pos huid]
      exact Or.inl ⟨_, rfl⟩
    · rw [if_neg huid]
      by_cases hct : r.CreationTimestamp = 0
      · rw [if_pos hct]
        exact Or.inl ⟨_, rfl⟩
      · rw [if_neg hct]
        cases hl : s.lookup r.Kind r.Name with
        | none => exact Or.inl ⟨_, rfl⟩
        | some cur =>
          by_cases hc : cur.ResourceVersion ≠ r.ResourceVersion
          · simp only [if_pos hc]
            exact Or.inl ⟨_, rfl⟩
          · simp only [if_neg hc]
            exact Or.inr ⟨_, _, cur, rfl, rfl, rfl⟩

/-- `Delete` either fails and leaves the store as it was, or succeeds on a live key,
returns its last value and advances the revision by one. -/
theorem Delete_cases (s : Datastore Spec) (kind name rv : String) :
    (∃ e, Delete s kind name rv = (s, none, some e))
    ∨ (∃ s2 cur, Delete s kind name rv = (s2, some cur, none)
        ∧ s2.revision = s.revision + 1 ∧ s.lookup kind name = some cur) := by
  unfold Delete
  cases hl : s.lookup kind name with
  | none => exact Or.inl ⟨_, rfl⟩
  | some cur =>
    by_cases hc : rv ≠ "" ∧ rv ≠ cur.ResourceVersion
    · simp only [if_pos hc]
      exact Or.inl ⟨_, rfl⟩
    · simp only [if_neg hc]
      exact Or.inr ⟨_, cur, rfl, rfl, rfl⟩

/-- A mutating call either makes no change and no event, or makes a change at the
next revision with one event. -/
theorem step_cases (s : Datastore Spec) (m : Mutation Spec) :
    step s m = (s, none)
    ∨ (∃ s2 e, step s m = (s2, some e) ∧ s2.revision = s.revision + 1) := by
  cases m with
  | Create r uid now =>
    rcases Create_cases s r uid now with ⟨e, h⟩ | ⟨s2, stored, h, hrev, _⟩
    · exact Or.inl (by simp [step, h])
    · exact Or.inr ⟨s2, ⟨.Added, some stored, none⟩, by simp [step, h], hrev⟩
  | Update r =>
    rcases Update_cases s r with ⟨e, h⟩ | ⟨s2, stored, cur, h, hrev, _⟩
    · exact Or.inl (by simp [step, h])
    · exact Or.inr ⟨s2, ⟨.Modified, some stored, s.lookup r.Kind r.Name⟩,
        by simp [step, h], hrev⟩
  | Delete kind name rv =>
    rcases Delete_cases s kind name rv with ⟨e, h⟩ | ⟨s2, cur, h, hrev, _⟩
    · exact Or.inl (by simp [step, h])
    · exact Or.inr ⟨s2, ⟨.Deleted, none, some cur⟩, by simp [step, h], hrev⟩

/-- The resource `Get` returns is the one the lookup finds. -/
theorem Get_fst (s : Datastore Spec) (kind name : String) :
    (Get s kind name).1 = s.lookup kind name := by
  unfold Get
  cases s.lookup kind name <;> rfl

/-- The client after a call that makes no change. -/
theorem apply_of_step_none (c : Client Spec) (m : Mutation Spec)
    (h : step c.store m = (c.store, none)) : c.apply m = c := by
  unfold Client.apply
  rw [h]

/-- The client after a call that makes a change. -/
theorem apply_of_step_some (c : Client Spec) (m : Mutation Spec) (s2 : Datastore Spec)
    (e : Event Spec) (h : step c.store m = (s2, some e)) :
    c.apply m = { store := s2, log := c.log ++ [(s2.revision, e)] } := by
  unfold Client.apply
  rw [h]

/-- The history invariant: every recorded revision is at most the store revision,
and the recorded revisions increase strictly. It is kept by every call. -/
theorem log_invariant_apply (c : Client Spec) (m : Mutation Spec)
    (hb : ∀ x ∈ c.log, x.1 ≤ c.store.revision)
    (hp : c.log.Pairwise (fun a b => a.1 < b.1)) :
    (∀ x ∈ (c.apply m).log, x.1 ≤ (c.apply m).store.revision)
    ∧ (c.apply m).log.Pairwise (fun a b => a.1 < b.1) := by
  rcases step_cases c.store m with h | ⟨s2, e, h, hrev⟩
  · rw [apply_of_step_none c m h]
    exact ⟨hb, hp⟩
  · rw [apply_of_step_some c m s2 e h]
    constructor
    · intro x hx
      simp only [List.mem_append, List.mem_singleton] at hx
      rcases hx with hx | hx
      · have := hb x hx
        simp only
        omega
      · subst hx
        exact le_refl _
    · rw [List.pairwise_append]
      refine ⟨hp, List.pairwise_singleton _ _, ?_⟩
      intro a ha b hb2
      simp only [List.mem_singleton] at hb2
      subst hb2
      have := hb a ha
      simp only
      omega

/-- The history invariant holds after any sequence of calls. -/
theorem log_invariant_run (ms : List (Mutation Spec)) (c : Client Spec)
    (hb : ∀ x ∈ c.log, x.1 ≤ c.store.revision)
    (hp : c.log.Pairwise (fun a b => a.1 < b.1)) :
    (∀ x ∈ (c.run ms).log, x.1 ≤ (c.run ms).store.revision)
    ∧ (c.run ms).log.Pairwise (fun a b => a.1 < b.1) := by
  induction ms generalizing c with
  | nil => exact ⟨hb, hp⟩
  | cons m rest ih =>
    have h := log_invariant_apply c m hb hp
    exact ih (c.apply m) h.1 h.2

/-- The store revision never decreases along a call. -/
theorem revision_le_apply (c : Client Spec) (m : Mutation Spec) :
    c.store.revision ≤ (c.apply m).store.revision := by
  rcases step_cases c.store m with h | ⟨s2, e, h, hrev⟩
  · rw [apply_of_step_none c m h]
  · rw [apply_of_step_some c m s2 e h]
    simp only
    omega

/-- A watch from a revision `V` that is not ahead of the store delivers, after
further calls, what it delivered before followed by the events of those calls. -/
theorem Watch_run (ms : List (Mutation Spec)) (c : Client Spec) (V : Nat)
    (hV : V ≤ c.store.revision) :
    Watch (c.run ms) V = Watch c V ++ mutationEvents c.store ms := by
  induction ms generalizing c with
  | nil => simp [Client.run, mutationEvents]
  | cons m rest ih =>
    have hrun : c.run (m :: rest) = (c.apply m).run rest := rfl
    rw [hrun, ih (c.apply m) (le_trans hV (revision_le_apply c m))]
    rcases step_cases c.store m with h | ⟨s2, e, h, hrev⟩
    · rw [apply_of_step_none c m h]
      simp [mutationEvents, h]
    · rw [apply_of_step_some c m s2 e h]
      have hlt : V < s2.revision := by omega
      simp [mutationEvents, h, Watch, watchEntries, List.filter_append, hlt]

/-- A watch from the current revision of the store delivers nothing. -/
theorem Watch_current (c : Client Spec) (hb : ∀ x ∈ c.log, x.1 ≤ c.store.revision) :
    Watch c c.store.revision = [] := by
  simp only [Watch, watchEntries, List.map_eq_nil_iff, List.filter_eq_nil_iff]
  intro x hx
  have := hb x hx
  simp only [decide_eq_true_eq]
  omega

/-- A call that gives no event leaves the store as it was. -/
theorem step_no_event (s : Datastore Spec) (m : Mutation Spec)
    (h : (step s m).2 = none) : (step s m).1 = s := by
  rcases step_cases s m with h2 | ⟨s2, e, h2, _⟩
  · rw [h2]
  · rw [h2] at h
    cases h

/-- The event of a call that makes a change has the type of the call and carries
the states before and after it: Added carries the resource Create returned,
Modified the resource live before the call and the one Update returned, Deleted
the resource live before the call, which Delete returned. -/
theorem step_event_spec (s : Datastore Spec) (m : Mutation Spec) (e : Event Spec)
    (h : (step s m).2 = some e) : eventMatches s m e := by
  unfold eventMatches
  cases m with
  | Create r uid now =>
    rcases Create_cases s r uid now with ⟨err, hc⟩ | ⟨s2, stored, hc, _, hl⟩
    · simp [step, hc] at h
    · simp only [step, hc, Option.some.injEq] at h
      subst h
      simp [hc, Get_fst, hl]
  | Update r =>
    rcases Update_cases s r with ⟨err, hc⟩ | ⟨s2, stored, cur, hc, _, hl⟩
    · simp [step, hc] at h
    · simp only [step, hc, Option.some.injEq] at h
      subst h
      simp [hc, Get_fst, hl]
  | Delete kind name rv =>
    rcases Delete_cases s kind name rv with ⟨err, hc⟩ | ⟨s2, cur, hc, _, hl⟩
    · simp [step, hc] at h
    · simp only [step, hc, Option.some.injEq] at h
      subst h
      simp [hc, Get_fst, hl]

/-- C11: a Watch started with resume revision `V`, the revision the store had after
any calls `before`, delivers after the further calls `after` exactly the events of
the changes those calls made, one for each call that succeeded and in their order,
and none for the state current at `V`; the delivered changes are in strictly
increasing revision order; a call that fails makes no change and no event; each
event has the matching type and before and after state (Added carries the new
object, Modified the previous and the new one, Deleted the previous one). In the
watch test, watching from the revision of the first Create skips that Create and
yields Added for `bgppeer-2` then Deleted for `bgppeer-1`. -/
theorem Watch_resume (cause : String) (before after : List (Mutation Spec)) :
    Watch (((newClient Spec cause).run before).run after)
        ((newClient Spec cause).run before).store.revision
      = mutationEvents ((newClient Spec cause).run before).store after
    ∧ (watchEntries (((newClient Spec cause).run before).run after)
        ((newClient Spec cause).run before).store.revision).Pairwise (fun a b => a.1 < b.1)
    ∧ (∀ (s : Datastore Spec) (m : Mutation Spec), (step s m).2 = none → (step s m).1 = s)
    ∧ (∀ (s : Datastore Spec) (m : Mutation Spec) (e : Event Spec), (step s m).2 = some e →
        eventMatches s m e)
    ∧ ((Create (newClient String "key not found").store bgppeer1 "uid-1" 1500000000).2.1.map
          (fun r => r.ResourceVersion) = some (toString 1)
        ∧ Watch ((newClient String "key not found").run watchTestCalls) 1
          = [ { type := .Added,
                Object := some { bgppeer2 with ResourceVersion := "2", UID := "uid-2",
                                               CreationTimestamp := 1500000001 },
                Previous := none },
              { type := .Deleted, Object := none,
                Previous := some { bgppeer1 with ResourceVersion := "1", UID := "uid-1",
                                                 CreationTimestamp := 1500000000 } } ]) := by
  have hinv := log_invariant_run before (newClient Spec cause)
    (by intro x hx; cases hx) List.Pairwise.nil
  refine ⟨?_, ?_, step_no_event, step_event_spec, ?_, ?_⟩
  · rw [Watch_run after _ _ (le_refl _), Watch_current _ hinv.1, List.nil_append]
  · have hinv2 := log_invariant_run after ((newClient Spec cause).run before) hinv.1 hinv.2
    exact hinv2.2.filter _
  · decide
  · decide

/-- Witness of C11: the watch test, with Create of `bgppeer-1` before the resume
revision and Create of `bgppeer-2` and Delete of `bgppeer-1` after it; the failed
second Create of `bgppeer-1` changes nothing, and the Delete gives a Deleted event
carrying the stored `bgppeer-1`. -/
theorem Watch_resume_witness :
    Watch (((newClient String "key not found").run
          [.Create bgppeer1 "uid-1" 1500000000]).run
          [.Create bgppeer2 "uid-2" 1500000001, .Delete "BGPPeer" "bgppeer-1" ""])
        ((newClient String "key not found").run
          [.Create bgppeer1 "uid-1" 1500000000]).store.revision
      = mutationEvents ((newClient String "key not found").run
          [.Create bgppeer1 "uid-1" 1500000000]).store
          [.Create bgppeer2 "uid-2" 1500000001, .Delete "BGPPeer" "bgppeer-1" ""]
    ∧ (step bgppeerStore (.Create bgppeerStored "uid-9" 1500000009)).1 = bgppeerStore
    ∧ eventMatches bgppeerStore (.Delete "BGPPeer" "bgppeer-1" "")
        ⟨.Deleted, none, some bgppeerStored⟩ :=
  ⟨(Watch_resume "key not found" [.Create bgppeer1 "uid-1" 1500000000]
      [.Create bgppeer2 "uid-2" 1500000001, .Delete "BGPPeer" "bgppeer-1" ""]).1,
   (Watch_resume "key not found" ([] : List (Mutation String)) []).2.2.1
      bgppeerStore (.Create bgppeerStored "uid-9" 1500000009) (by decide),
   (Watch_resume "key not found" ([] : List (Mutation String)) []).2.2.2.1
      bgppeerStore (.Delete "BGPPeer" "bgppeer-1" "") ⟨.Deleted, none, some bgppeerStored⟩
      (by decide)⟩

end

end Calico.clientv3
